import Mathlib

/-
Verification of the pluto node-bootstrap settings resolver
(src/sources/api/pluto/src/main.rs and eks.rs).

Pure Rust string operations (split, split_whitespace, trim_start,
starts_with, u32 parsing) are embedded as structurally recursive Lean
functions on the character lists underlying strings.  External
collaborators (the Bottlerocket API settings view, the IMDS client, the
EKS and EC2 adapters, the filesystem and the constants crate) are
modelled as an explicit environment record; their semantics, where they
matter, follow the spec.
-/

deriving instance DecidableEq for Except

/-- Rust str::split on a single separator character: splits the character
list at every occurrence of the separator, keeping empty segments
(so the empty string yields one empty segment). -/
def splitCharAux (sep : Char) : List Char → List Char → List (List Char)
  | [], acc => [acc.reverse]
  | c :: cs, acc =>
    if c = sep then acc.reverse :: splitCharAux sep cs []
    else splitCharAux sep cs (c :: acc)

/-- Rust str::split(sep) lifted to Lean strings. -/
def splitChar (sep : Char) (s : String) : List String :=
  (splitCharAux sep s.data []).map fun cs => String.mk cs

/-- Rust str::split_whitespace: maximal runs of non-whitespace characters,
with no empty tokens. -/
def splitWhitespaceAux : List Char → List Char → List (List Char)
  | [], [] => []
  | [], acc => [acc.reverse]
  | c :: cs, acc =>
    if c.isWhitespace then
      match acc with
      | [] => splitWhitespaceAux cs []
      | _ :: _ => acc.reverse :: splitWhitespaceAux cs []
    else splitWhitespaceAux cs (c :: acc)

/-- Rust str::split_whitespace lifted to Lean strings. -/
def splitWhitespace (s : String) : List String :=
  (splitWhitespaceAux s.data []).map fun cs => String.mk cs

/-- Boolean check that the first list is an initial segment of the second. -/
def listIsPre : List Char → List Char → Bool
  | [], _ => true
  | _ :: _, [] => false
  | c :: cs, d :: ds => c = d && listIsPre cs ds

/-- Rust str::starts_with on strings. -/
def strStartsWith (s pre : String) : Bool :=
  listIsPre pre.data s.data

/-- Rust str::trim_start composed with starts_with a hash character:
detects the comment lines skipped by the max-pods table reader. -/
def lineIsComment (line : String) : Bool :=
  match line.data.dropWhile Char.isWhitespace with
  | [] => false
  | c :: _ => c = '#'

/-- Digit-list accumulator for u32 parsing. -/
def digitsToNat : List Char → Nat → Nat
  | [], acc => acc
  | c :: cs, acc => digitsToNat cs (acc * 10 + (c.toNat - 48))

/-- Rust u32::from_str: an optional leading plus sign, then one or more
ASCII digits, value at most 2^32 - 1; anything else is a parse error. -/
def parseU32 (s : String) : Option Nat :=
  let ds := match s.data with
    | '+' :: rest => rest
    | other => other
  match ds with
  | [] => none
  | _ :: _ =>
    if ds.all Char.isDigit then
      let n := digitsToNat ds 0
      if n < 2 ^ 32 then some n else none
    else none

/-- Join a list of strings with a dot separator, as Rust Vec::join(".") does. -/
def joinDot : List String → String
  | [] => ""
  | [s] => s
  | s :: rest => s ++ "." ++ joinDot rest

/-- An IP address as produced by the standard library parser: either a
four-octet IPv4 address or an IPv6 address given by its groups. -/
inductive IpAddr where
  | v4 (a b c d : Nat)
  | v6 (groups : List Nat)
deriving DecidableEq

/-- Modelled from the spec: the cluster DNS IP setting type holds either a
single address or a list of addresses; iteration yields the scalar or the
list elements in order. -/
inductive KubernetesClusterDnsIp where
  | Scalar (ip : IpAddr)
  | Vector (ips : List IpAddr)
deriving DecidableEq

/-- First address produced by iterating a cluster DNS IP setting value. -/
def KubernetesClusterDnsIp.iterFirst : KubernetesClusterDnsIp → Option IpAddr
  | .Scalar ip => some ip
  | .Vector ips => ips.head?

/-- The two admissible sources for a generated hostname override. -/
inductive KubernetesHostnameOverrideSource where
  | PrivateDNSName
  | InstanceID
deriving DecidableEq

/-- Error type of the resolver, one case per variant of the source error
enumeration that the embedded code can construct. -/
inductive PlutoError where
  | awsInfo
  | awsRegion
  | awsBase64Decode
  | parseToU32 (setting : String)
  | cidrParse (cidr : String) (reason : String)
  | badIp (ip : String)
  | noIp
  | imdsRequest
  | imdsNone (what : String)
  | invalidHostname
  | invalidUrl
  | eksError
  | ec2Error
  | eniMaxPodsFile (path : String)
  | ioReadLine
  | serialize
  | setFailure
  | noInstanceTypeMaxPods (instance_type : String)
  | createAwsConfigFile
  | writeAwsConfigFile
  | tempdir
  | logger
deriving DecidableEq

/-- Modelled from the spec: the AWS-scoped part of the settings view
(region and the base64 provider-config blob). -/
structure AwsSettingsView where
  region : Option String := none
  config : Option String := none
deriving DecidableEq

/-- Modelled from the spec: network proxy settings consulted by the
control-plane adapters. -/
structure NetworkSettingsView where
  https_proxy : Option String := none
  no_proxy : Option (List String) := none
deriving DecidableEq

/-- Modelled from the spec: the Kubernetes-scoped part of the settings
view, carrying every field the pipeline reads or resolves. -/
structure KubernetesSettingsView where
  cluster_name : Option String := none
  max_pods : Option Nat := none
  cluster_dns_ip : Option KubernetesClusterDnsIp := none
  node_ip : Option IpAddr := none
  provider_id : Option String := none
  hostname_override : Option String := none
  hostname_override_source : Option KubernetesHostnameOverrideSource := none
deriving DecidableEq

/-- Modelled from the spec: a partially populated settings document, with
each scope present only when some of its fields are. -/
structure SettingsView where
  aws : Option AwsSettingsView := none
  kubernetes : Option KubernetesSettingsView := none
  network : Option NetworkSettingsView := none
deriving DecidableEq

/-- Modelled from the spec: the snapshot (read-only baseline from the
configuration store) together with the delta (append-only overlay of
newly resolved values). -/
structure SettingsViewDelta where
  snapshot : SettingsView
  delta : SettingsView
deriving DecidableEq

/-- Modelled from the spec: constructing the view from the API response
starts with an empty delta. -/
def fromApiResponse (s : SettingsView) : SettingsViewDelta :=
  { snapshot := s, delta := {} }

/-- Modelled from the spec: field lookup is overlay-wins, else baseline,
else absent. -/
def overlayGet (del snap : Option β) (g : β → Option α) : Option α :=
  match del.bind g with
  | some v => some v
  | none => snap.bind g

/-- Lookup of a Kubernetes-scoped field through the delta-then-snapshot view. -/
def overlayK8s (info : SettingsViewDelta) (g : KubernetesSettingsView → Option α) : Option α :=
  overlayGet info.delta.kubernetes info.snapshot.kubernetes g

/-- Lookup of an AWS-scoped field through the delta-then-snapshot view. -/
def overlayAws (info : SettingsViewDelta) (g : AwsSettingsView → Option α) : Option α :=
  overlayGet info.delta.aws info.snapshot.aws g

/-- Lookup of a network-scoped field through the delta-then-snapshot view. -/
def overlayNetwork (info : SettingsViewDelta) (g : NetworkSettingsView → Option α) : Option α :=
  overlayGet info.delta.network info.snapshot.network g

def getClusterName (info : SettingsViewDelta) : Option String :=
  overlayK8s info fun k => k.cluster_name

def getMaxPods (info : SettingsViewDelta) : Option Nat :=
  overlayK8s info fun k => k.max_pods

def getClusterDnsIp (info : SettingsViewDelta) : Option KubernetesClusterDnsIp :=
  overlayK8s info fun k => k.cluster_dns_ip

def getNodeIp (info : SettingsViewDelta) : Option IpAddr :=
  overlayK8s info fun k => k.node_ip

def getProviderId (info : SettingsViewDelta) : Option String :=
  overlayK8s info fun k => k.provider_id

def getHostnameOverride (info : SettingsViewDelta) : Option String :=
  overlayK8s info fun k => k.hostname_override

def getHostnameOverrideSource (info : SettingsViewDelta) : Option KubernetesHostnameOverrideSource :=
  overlayK8s info fun k => k.hostname_override_source

def getRegion (info : SettingsViewDelta) : Option String :=
  overlayAws info fun a => a.region

def getAwsConfig (info : SettingsViewDelta) : Option String :=
  overlayAws info fun a => a.config

def getHttpsProxy (info : SettingsViewDelta) : Option String :=
  overlayNetwork info fun n => n.https_proxy

def getNoProxy (info : SettingsViewDelta) : Option (List String) :=
  overlayNetwork info fun n => n.no_proxy

/-- Modelled from the spec: writes go into the delta only, materialising
the Kubernetes scope there on first write. -/
def setK8s (info : SettingsViewDelta) (upd : KubernetesSettingsView → KubernetesSettingsView) :
    SettingsViewDelta :=
  { info with
    delta := { info.delta with kubernetes := some (upd (info.delta.kubernetes.getD {})) } }

def setMaxPods (info : SettingsViewDelta) (v : Nat) : SettingsViewDelta :=
  setK8s info fun k => { k with max_pods := some v }

def setClusterDnsIp (info : SettingsViewDelta) (v : KubernetesClusterDnsIp) : SettingsViewDelta :=
  setK8s info fun k => { k with cluster_dns_ip := some v }

def setNodeIp (info : SettingsViewDelta) (v : IpAddr) : SettingsViewDelta :=
  setK8s info fun k => { k with node_ip := some v }

def setProviderId (info : SettingsViewDelta) (v : String) : SettingsViewDelta :=
  setK8s info fun k => { k with provider_id := some v }

def setHostnameOverride (info : SettingsViewDelta) (v : String) : SettingsViewDelta :=
  setK8s info fun k => { k with hostname_override := some v }

/-- Result of an external call: success or an adapter-level failure whose
details the resolver never inspects. -/
abbrev ExtResult (α : Type) := Except Unit α

/-- Modelled from the spec: the cluster network descriptor returned by the
EKS describe-cluster adapter, of which only the service IPv4 CIDR is used. -/
structure ClusterNetworkConfig where
  service_ipv4_cidr : Option String := none
deriving DecidableEq

/-- Access to one max-pods table file: the open call fails, or the file
yields a list of line reads each of which may fail. -/
inductive FileAccess where
  | openErr
  | content (lines : List (ExtResult String))

/-- Modelled from the spec: the environment of external collaborators —
the IMDS client calls consumed by pluto (each returning an optional value,
with absence distinct from transport failure), the EKS and EC2
control-plane adapters, the filesystem, the configuration-store API, the
standard-library IP parser and the modeled-type validators, and the
pre-pipeline setup steps. -/
structure Env where
  fetch_instance_type : ExtResult (Option String)
  fetch_mac_addresses : ExtResult (Option (List String))
  fetch_cidr_blocks_for_mac : String → ExtResult (Option (List String))
  fetch_local_ipv4_address : ExtResult (Option String)
  fetch_primary_ipv6_address : ExtResult (Option String)
  fetch_instance_id : ExtResult (Option String)
  fetch_zone : ExtResult (Option String)
  eks_cluster_network_config :
    String → String → Option String → Option (List String) → ExtResult ClusterNetworkConfig
  ec2_private_dns_name :
    String → String → Option String → Option (List String) → ExtResult String
  read_file : String → FileAccess
  ip_from_str : String → Option IpAddr
  valid_hostname : String → Bool
  valid_url : String → Bool
  get_aws_k8s_info : ExtResult SettingsView
  logger_init : ExtResult Unit
  tempdir_create : ExtResult Unit
  stage_aws_config : String → Except PlutoError Unit
  submit_patch : KubernetesSettingsView → ExtResult Unit

/-- The two-step error context applied to every IMDS fetch: a transport
failure becomes an IMDS-request error and a present-but-empty response
becomes an IMDS-none error naming the missing item. -/
def imdsFetch (r : ExtResult (Option α)) (what : String) : Except PlutoError α :=
  match r with
  | .error _ => .error .imdsRequest
  | .ok none => .error (.imdsNone what)
  | .ok (some v) => .ok v

def DEFAULT_DNS_CLUSTER_IP : String := "10.100.0.10"

def DEFAULT_10_RANGE_DNS_CLUSTER_IP : String := "172.20.0.10"

def ENI_MAX_PODS_PATH : String := "/usr/share/eks/eni-max-pods"

def ENI_MAX_PODS_OVERRIDE_PATH : String := "/usr/share/eks/eni-max-pods-override"

/-- Timeout bound, in seconds, on the EKS describe-cluster call; an
elapsed timeout surfaces as an adapter error. -/
def EKS_DESCRIBE_CLUSTER_TIMEOUT : Nat := 300

/-- Modelled from the spec: the well-known transaction identifier reserved
for boot-time settings generation, defined in the shared constants crate. -/
def LAUNCH_TRANSACTION : String := "bottlerocket-launch"

/-- Line scan of a max-pods table: comments are skipped, the first line
with exactly two whitespace-separated tokens whose first token equals the
instance type decides the outcome, and reaching the end of the file is a
not-found error. -/
def maxPodsScan (instance_type : String) : List (ExtResult String) → Except PlutoError Nat
  | [] => .error (.noInstanceTypeMaxPods instance_type)
  | r :: rest =>
    match r with
    | .error _ => .error .ioReadLine
    | .ok line =>
      if lineIsComment line then maxPodsScan instance_type rest
      else
        match splitWhitespace line with
        | [t0, t1] =>
          if t0 = instance_type then
            match parseU32 t1 with
            | some n => .ok n
            | none => .error (.parseToU32 t1)
          else maxPodsScan instance_type rest
        | _ => maxPodsScan instance_type rest

/-- Embeds get_max_pods_from_file: open the table file and scan it for the
instance type. -/
def get_max_pods_from_file (instance_type : String) (pods_file : String)
    (file : FileAccess) : Except PlutoError Nat :=
  match file with
  | .openErr => .error (.eniMaxPodsFile pods_file)
  | .content lines => maxPodsScan instance_type lines

/-- Embeds get_max_pods: fetch the instance type from IMDS, then try the
override table and fall back to the default table when it fails. -/
def get_max_pods (env : Env) : Except PlutoError Nat :=
  match imdsFetch env.fetch_instance_type "instance_type" with
  | .error e => .error e
  | .ok instance_type =>
    match get_max_pods_from_file instance_type ENI_MAX_PODS_OVERRIDE_PATH
        (env.read_file ENI_MAX_PODS_OVERRIDE_PATH) with
    | .ok max_pods => .ok max_pods
    | .error _ =>
      get_max_pods_from_file instance_type ENI_MAX_PODS_PATH
        (env.read_file ENI_MAX_PODS_PATH)

/-- Embeds generate_max_pods: short-circuit when max_pods is already set,
otherwise write the lookup result if it succeeded and swallow its failure
if it did not. -/
def generate_max_pods (env : Env) (info : SettingsViewDelta) :
    Except PlutoError SettingsViewDelta :=
  if (getMaxPods info).isSome then .ok info
  else
    match get_max_pods env with
    | .ok max_pods => .ok (setMaxPods info max_pods)
    | .error _ => .ok info

/-- Embeds get_dns_from_ipv4_cidr: the CIDR must split on dots into
exactly four components; the last is replaced by "10" and the components
are rejoined. -/
def get_dns_from_ipv4_cidr (cidr : String) : Except PlutoError String :=
  let split := splitChar '.' cidr
  if split.length = 4 then .ok (joinDot (split.set 3 "10"))
  else
    .error (.cidrParse cidr
      ("expected 4 components but found " ++ toString split.length))

/-- Embeds get_eks_network_config: when region and cluster name are both
known, call the EKS adapter and derive the DNS IP from its service IPv4
CIDR; any failure along the way yields success with no address. -/
def get_eks_network_config (env : Env) (info : SettingsViewDelta) :
    Except PlutoError (Option String) :=
  match getRegion info, getClusterName info with
  | some region, some cluster_name =>
    match env.eks_cluster_network_config region cluster_name
        (getHttpsProxy info) (getNoProxy info) with
    | .ok config =>
      match config.service_ipv4_cidr with
      | some ipv4_cidr =>
        match get_dns_from_ipv4_cidr ipv4_cidr with
        | .ok dns_ip => .ok (some dns_ip)
        | .error _ => .ok none
      | none => .ok none
    | .error _ => .ok none
  | _, _ => .ok none

/-- Embeds get_ipv4_cluster_dns_ip_from_imds_mac: take the first MAC, then
its first CIDR block, and pick one of the two literal defaults according
to whether that block starts with "10.". -/
def get_ipv4_cluster_dns_ip_from_imds_mac (env : Env) : Except PlutoError String :=
  match imdsFetch env.fetch_mac_addresses "mac addresses" with
  | .error e => .error e
  | .ok macs =>
    match macs.head? with
    | none => .error (.imdsNone "mac addresses")
    | some mac =>
      match imdsFetch (env.fetch_cidr_blocks_for_mac mac) "CIDR blocks" with
      | .error e => .error e
      | .ok cidr_blocks =>
        match cidr_blocks.head? with
        | none => .error (.imdsNone "CIDR blocks")
        | some cidr_block =>
          .ok (if strStartsWith cidr_block "10." then DEFAULT_10_RANGE_DNS_CLUSTER_IP
               else DEFAULT_DNS_CLUSTER_IP)

/-- Embeds generate_cluster_dns_ip: short-circuit when already set; derive
from the EKS network config when possible, otherwise fall back to the IMDS
MAC/CIDR heuristic; parse the chosen address and write it as a scalar. -/
def generate_cluster_dns_ip (env : Env) (info : SettingsViewDelta) :
    Except PlutoError SettingsViewDelta :=
  if (getClusterDnsIp info).isSome then .ok info
  else
    match get_eks_network_config env info with
    | .error e => .error e
    | .ok eks_ip =>
      match (match eks_ip with
             | some ip => Except.ok ip
             | none => get_ipv4_cluster_dns_ip_from_imds_mac env) with
      | .error e => .error e
      | .ok ip_addr =>
        match env.ip_from_str ip_addr with
        | some ip => .ok (setClusterDnsIp info (KubernetesClusterDnsIp.Scalar ip))
        | none => .error (.badIp ip_addr)

/-- Embeds generate_node_ip: short-circuit when already set; first run the
cluster DNS IP resolver, then pick the IMDS query by the address family of
the first resolved cluster DNS address, parse the answer and write it. -/
def generate_node_ip (env : Env) (info : SettingsViewDelta) :
    Except PlutoError SettingsViewDelta :=
  if (getNodeIp info).isSome then .ok info
  else
    match generate_cluster_dns_ip env info with
    | .error e => .error e
    | .ok info =>
      match (getClusterDnsIp info).bind KubernetesClusterDnsIp.iterFirst with
      | none => .error .noIp
      | some cluster_dns_ip =>
        match (match cluster_dns_ip with
               | .v4 _ _ _ _ => imdsFetch env.fetch_local_ipv4_address "node ipv4 address"
               | .v6 _ =>
                 imdsFetch env.fetch_primary_ipv6_address
                   "ipv6s associated with primary network interface") with
        | .error e => .error e
        | .ok node_ip =>
          match env.ip_from_str node_ip with
          | some ip => .ok (setNodeIp info ip)
          | none => .error (.badIp node_ip)

/-- Embeds generate_provider_id: short-circuit when already set; fetch the
instance id and zone from IMDS, compose the aws:/// identifier, validate
it as a URL and write it. -/
def generate_provider_id (env : Env) (info : SettingsViewDelta) :
    Except PlutoError SettingsViewDelta :=
  if (getProviderId info).isSome then .ok info
  else
    match imdsFetch env.fetch_instance_id "instance ID" with
    | .error e => .error e
    | .ok instance_id =>
      match imdsFetch env.fetch_zone "zone" with
      | .error e => .error e
      | .ok zone =>
        let provider_id := "aws:///" ++ zone ++ "/" ++ instance_id
        if env.valid_url provider_id then .ok (setProviderId info provider_id)
        else .error .invalidUrl

/-- Embeds generate_node_name: short-circuit when the hostname override is
already set; no-op when no override source is chosen; otherwise require
the region, fetch the instance id, and dispatch on the source to produce
the validated hostname. -/
def generate_node_name (env : Env) (info : SettingsViewDelta) :
    Except PlutoError SettingsViewDelta :=
  if (getHostnameOverride info).isSome then .ok info
  else
    match getHostnameOverrideSource info with
    | none => .ok info
    | some hostname_source =>
      match getRegion info with
      | none => .error .awsRegion
      | some region =>
        match imdsFetch env.fetch_instance_id "instance ID" with
        | .error e => .error e
        | .ok instance_id =>
          match hostname_source with
          | .PrivateDNSName =>
            match env.ec2_private_dns_name region instance_id
                (getHttpsProxy info) (getNoProxy info) with
            | .error _ => .error .ec2Error
            | .ok hostname_override =>
              if env.valid_hostname hostname_override then
                .ok (setHostnameOverride info hostname_override)
              else .error .invalidHostname
          | .InstanceID =>
            if env.valid_hostname instance_id then
              .ok (setHostnameOverride info instance_id)
            else .error .invalidHostname

/-- Embeds set_aws_config: stage the decoded provider-config blob when one
is present in the view, otherwise do nothing. -/
def set_aws_config (env : Env) (info : SettingsViewDelta) : Except PlutoError Unit :=
  match getAwsConfig info with
  | some config_contents => env.stage_aws_config config_contents
  | none => .ok ()

/-- The resolver pipeline of run, in its fixed order. -/
def pipeline (env : Env) (info : SettingsViewDelta) : Except PlutoError SettingsViewDelta :=
  match generate_cluster_dns_ip env info with
  | .error e => .error e
  | .ok info =>
    match generate_node_ip env info with
    | .error e => .error e
    | .ok info =>
      match generate_max_pods env info with
      | .error e => .error e
      | .ok info =>
        match generate_provider_id env info with
        | .error e => .error e
        | .ok info => generate_node_name env info

/-- Embeds run: logger and snapshot fetch, temporary-directory creation
and AWS config staging, then the five resolvers in order, then the single
conditional PATCH submission of the Kubernetes delta tagged with the
launch transaction.  The second component records every PATCH submitted to
the configuration store. -/
def run (env : Env) : Except PlutoError Unit × List (KubernetesSettingsView × String) :=
  match env.logger_init with
  | .error _ => (.error .logger, [])
  | .ok () =>
    match env.get_aws_k8s_info with
    | .error _ => (.error .awsInfo, [])
    | .ok current_settings =>
      let info := fromApiResponse current_settings
      match env.tempdir_create with
      | .error _ => (.error .tempdir, [])
      | .ok () =>
        match set_aws_config env info with
        | .error e => (.error e, [])
        | .ok () =>
          match pipeline env info with
          | .error e => (.error e, [])
          | .ok info =>
            match info.delta.kubernetes with
            | some k8s_settings =>
              match env.submit_patch k8s_settings with
              | .ok () => (.ok (), [(k8s_settings, LAUNCH_TRANSACTION)])
              | .error _ => (.error .setFailure, [(k8s_settings, LAUNCH_TRANSACTION)])
            | none => (.ok (), [])

/-- A fully inert environment used as the basis of concrete test
environments: every optional fetch is absent, every adapter call fails,
every validation passes, nothing parses. -/
def baseEnv : Env where
  fetch_instance_type := .ok none
  fetch_mac_addresses := .ok none
  fetch_cidr_blocks_for_mac := fun _ => .ok none
  fetch_local_ipv4_address := .ok none
  fetch_primary_ipv6_address := .ok none
  fetch_instance_id := .ok none
  fetch_zone := .ok none
  eks_cluster_network_config := fun _ _ _ _ => .error ()
  ec2_private_dns_name := fun _ _ _ _ => .error ()
  read_file := fun _ => .openErr
  ip_from_str := fun _ => none
  valid_hostname := fun _ => true
  valid_url := fun _ => true
  get_aws_k8s_info := .error ()
  logger_init := .ok ()
  tempdir_create := .ok ()
  stage_aws_config := fun _ => .ok ()
  submit_patch := fun _ => .ok ()

/-- Follows the claim's words: the first data line of a max-pods table
that has exactly two whitespace-separated tokens with the first equal to
the instance type, skipping comment lines, yields its second token. -/
def specFirstDecider (instance_type : String) : List String → Option String
  | [] => none
  | l :: rest =>
    if lineIsComment l then specFirstDecider instance_type rest
    else
      match splitWhitespace l with
      | [t0, t1] =>
        if t0 = instance_type then some t1 else specFirstDecider instance_type rest
      | _ => specFirstDecider instance_type rest

/-- C8: for every file content and instance type, the table lookup skips
comment lines and lines without exactly two whitespace-separated tokens
whose first token equals the instance type; the first such matching line
decides the outcome, its second token parsed as an integer on success and
a parse error otherwise, and with no matching line the lookup fails with
a not-found error. -/
theorem claim_C8_max_pods_table_lookup (instance_type pods_file : String)
    (ls : List String) :
    get_max_pods_from_file instance_type pods_file (.content (ls.map Except.ok)) =
      match specFirstDecider instance_type ls with
      | some tok =>
        match parseU32 tok with
        | some n => .ok n
        | none => .error (.parseToU32 tok)
      | none => .error (.noInstanceTypeMaxPods instance_type) := by
  show maxPodsScan instance_type (ls.map Except.ok) = _
  induction ls with
  | nil => rfl
  | cons l rest ih =>
    simp only [List.map, maxPodsScan, specFirstDecider]
    by_cases hc : lineIsComment l
    · simpa [hc] using ih
    · simp only [hc, if_false]
      match h : splitWhitespace l with
      | [t0, t1] =>
        by_cases ht : t0 = instance_type
        · simp [ht]
        · simpa [ht] using ih
      | [] => simpa using ih
      | [t0] => simpa using ih
      | t0 :: t1 :: t2 :: ts => simpa using ih

/-- C4: the CIDR-to-DNS derivation succeeds exactly when splitting the
input on dots yields four components, in which case the first three are
rejoined with "10" as the fourth; any other component count yields the
CIDR parse error, and the two documented examples behave as stated. -/
theorem claim_C4_get_dns_from_ipv4_cidr (cidr : String) :
    ((∃ s, get_dns_from_ipv4_cidr cidr = .ok s) ↔ (splitChar '.' cidr).length = 4) ∧
    (∀ a b c d, splitChar '.' cidr = [a, b, c, d] →
      get_dns_from_ipv4_cidr cidr = .ok (joinDot [a, b, c, "10"])) ∧
    ((splitChar '.' cidr).length ≠ 4 →
      get_dns_from_ipv4_cidr cidr =
        .error (.cidrParse cidr
          ("expected 4 components but found " ++ toString (splitChar '.' cidr).length))) ∧
    get_dns_from_ipv4_cidr "123.456.789.0/123" = .ok "123.456.789.10" ∧
    get_dns_from_ipv4_cidr "123_456_789_0/123" =
      .error (.cidrParse "123_456_789_0/123" "expected 4 components but found 1") := by
  refine ⟨?_, ?_, ?_, by decide, by decide⟩
  · constructor
    · rintro ⟨s, hs⟩
      by_contra hlen
      simp [get_dns_from_ipv4_cidr, hlen] at hs
    · intro hlen
      refine ⟨joinDot ((splitChar '.' cidr).set 3 "10"), ?_⟩
      simp [get_dns_from_ipv4_cidr, hlen]
  · intro a b c d hsplit
    simp [get_dns_from_ipv4_cidr, hsplit, List.set, joinDot]
  · intro hlen
    simp [get_dns_from_ipv4_cidr, hlen]

/-- C9: whenever the IMDS fallback heuristic succeeds it returns one of
exactly two literal addresses, chosen solely by whether the first CIDR
block of the primary MAC starts with "10."; it fails when the MAC list or
the CIDR-block list is absent or empty. -/
theorem claim_C9_fallback_dns_two_valued (env : Env) :
    (∀ s, get_ipv4_cluster_dns_ip_from_imds_mac env = .ok s →
      s = "172.20.0.10" ∨ s = "10.100.0.10") ∧
    (∀ macs mac cidrs cidr_block,
      env.fetch_mac_addresses = .ok (some macs) → macs.head? = some mac →
      env.fetch_cidr_blocks_for_mac mac = .ok (some cidrs) →
      cidrs.head? = some cidr_block →
      get_ipv4_cluster_dns_ip_from_imds_mac env =
        .ok (if strStartsWith cidr_block "10." then DEFAULT_10_RANGE_DNS_CLUSTER_IP
             else DEFAULT_DNS_CLUSTER_IP)) ∧
    (env.fetch_mac_addresses = .ok none →
      get_ipv4_cluster_dns_ip_from_imds_mac env = .error (.imdsNone "mac addresses")) ∧
    (env.fetch_mac_addresses = .ok (some []) →
      get_ipv4_cluster_dns_ip_from_imds_mac env = .error (.imdsNone "mac addresses")) ∧
    (∀ macs mac, env.fetch_mac_addresses = .ok (some macs) → macs.head? = some mac →
      env.fetch_cidr_blocks_for_mac mac = .ok none →
      get_ipv4_cluster_dns_ip_from_imds_mac env = .error (.imdsNone "CIDR blocks")) ∧
    (∀ macs mac, env.fetch_mac_addresses = .ok (some macs) → macs.head? = some mac →
      env.fetch_cidr_blocks_for_mac mac = .ok (some []) →
      get_ipv4_cluster_dns_ip_from_imds_mac env = .error (.imdsNone "CIDR blocks")) := by
  refine ⟨?_, ?_, ?_, ?_, ?_, ?_⟩
  · intro s hs
    unfold get_ipv4_cluster_dns_ip_from_imds_mac at hs
    split at hs
    · simp at hs
    · split at hs
      · simp at hs
      · split at hs
        · simp at hs
        · split at hs
          · simp at hs
          · split at hs
            · left; simp [DEFAULT_10_RANGE_DNS_CLUSTER_IP] at hs; exact hs.symm
            · right; simp [DEFAULT_DNS_CLUSTER_IP] at hs; exact hs.symm
  · intro macs mac cidrs cidr_block hmac hhd hcb hch
    unfold get_ipv4_cluster_dns_ip_from_imds_mac
    simp [imdsFetch, hmac, hhd, hcb, hch]
  · intro hmac
    unfold get_ipv4_cluster_dns_ip_from_imds_mac
    simp [imdsFetch, hmac]
  · intro hmac
    unfold get_ipv4_cluster_dns_ip_from_imds_mac
    simp [imdsFetch, hmac]
  · intro macs mac hmac hhd hcb
    unfold get_ipv4_cluster_dns_ip_from_imds_mac
    simp [imdsFetch, hmac, hhd, hcb]
  · intro macs mac hmac hhd hcb
    unfold get_ipv4_cluster_dns_ip_from_imds_mac
    simp [imdsFetch, hmac, hhd, hcb]

/-- Witness for C9 at a concrete environment whose primary MAC advertises
the CIDR block 10.0.0.0/16. -/
theorem claim_C9_witness :
    ({ baseEnv with
        fetch_mac_addresses := .ok (some ["0e:a1"]),
        fetch_cidr_blocks_for_mac := fun _ => .ok (some ["10.0.0.0/16"]) } : Env)
        |> (fun env =>
          env.fetch_mac_addresses = .ok (some ["0e:a1"]) ∧
          get_ipv4_cluster_dns_ip_from_imds_mac env = .ok "172.20.0.10") := by
  refine ⟨rfl, ?_⟩
  have h :=
    (claim_C9_fallback_dns_two_valued
      { baseEnv with
        fetch_mac_addresses := .ok (some ["0e:a1"]),
        fetch_cidr_blocks_for_mac := fun _ => .ok (some ["10.0.0.0/16"]) }).2.1
      ["0e:a1"] "0e:a1" ["10.0.0.0/16"] "10.0.0.0/16" rfl rfl rfl rfl
  exact h.trans (by decide)

/-- C10: generate_max_pods is infallible — whatever its dependencies do it
returns success, leaving the view unchanged when the lookup chain fails
and writing the looked-up value only when the chain succeeds on an unset
field. -/
theorem claim_C10_generate_max_pods_infallible (env : Env) (info : SettingsViewDelta) :
    (∃ info2, generate_max_pods env info = .ok info2) ∧
    (∀ e, get_max_pods env = .error e → generate_max_pods env info = .ok info) ∧
    (∀ n, get_max_pods env = .ok n → getMaxPods info = none →
      generate_max_pods env info = .ok (setMaxPods info n)) := by
  refine ⟨?_, ?_, ?_⟩
  · unfold generate_max_pods
    by_cases h : (getMaxPods info).isSome
    · exact ⟨info, by simp [h]⟩
    · rcases hg : get_max_pods env with e | n
      · exact ⟨info, by simp [h, hg]⟩
      · exact ⟨setMaxPods info n, by simp [h, hg]⟩
  · intro e he
    unfold generate_max_pods
    by_cases h : (getMaxPods info).isSome <;> simp [h, he]
  · intro n hn hunset
    unfold generate_max_pods
    simp [hunset, hn]

/-- Witness for C10 at the inert environment, whose IMDS instance-type
fetch returns no value so the lookup chain fails. -/
theorem claim_C10_witness :
    get_max_pods baseEnv = .error (.imdsNone "instance_type") ∧
    generate_max_pods baseEnv (fromApiResponse {}) = .ok (fromApiResponse {}) := by
  refine ⟨rfl, ?_⟩
  exact (claim_C10_generate_max_pods_infallible baseEnv (fromApiResponse {})).2.1
    (.imdsNone "instance_type") rfl

/-- C7: with max_pods unset and an instance type available, the resolver
uses the override table when it succeeds, falls back to the default table
when the override lookup fails, and when both fail it still succeeds while
leaving max_pods unset. -/
theorem claim_C7_max_pods_miss_non_fatal (env : Env) (info : SettingsViewDelta)
    (instance_type : String)
    (hunset : getMaxPods info = none)
    (hit : env.fetch_instance_type = .ok (some instance_type)) :
    (∀ n, get_max_pods_from_file instance_type ENI_MAX_PODS_OVERRIDE_PATH
        (env.read_file ENI_MAX_PODS_OVERRIDE_PATH) = .ok n →
      generate_max_pods env info = .ok (setMaxPods info n)) ∧
    (∀ e n, get_max_pods_from_file instance_type ENI_MAX_PODS_OVERRIDE_PATH
        (env.read_file ENI_MAX_PODS_OVERRIDE_PATH) = .error e →
      get_max_pods_from_file instance_type ENI_MAX_PODS_PATH
        (env.read_file ENI_MAX_PODS_PATH) = .ok n →
      generate_max_pods env info = .ok (setMaxPods info n)) ∧
    (∀ e f, get_max_pods_from_file instance_type ENI_MAX_PODS_OVERRIDE_PATH
        (env.read_file ENI_MAX_PODS_OVERRIDE_PATH) = .error e →
      get_max_pods_from_file instance_type ENI_MAX_PODS_PATH
        (env.read_file ENI_MAX_PODS_PATH) = .error f →
      generate_max_pods env info = .ok info) := by
  refine ⟨?_, ?_, ?_⟩
  · intro n hovr
    unfold generate_max_pods get_max_pods
    simp [hunset, imdsFetch, hit, hovr]
  · intro e n hovr hdef
    unfold generate_max_pods get_max_pods
    simp [hunset, imdsFetch, hit, hovr, hdef]
  · intro e f hovr hdef
    unfold generate_max_pods get_max_pods
    simp [hunset, imdsFetch, hit, hovr, hdef]

/-- Witness for C7 at an environment whose override table is unreadable
while the default table has a matching row. -/
theorem claim_C7_witness :
    (let env : Env :=
      { baseEnv with
        fetch_instance_type := .ok (some "t3.large"),
        read_file := fun p =>
          if p = ENI_MAX_PODS_PATH then .content [.ok "# pods", .ok "t3.large 35"]
          else .openErr }
     getMaxPods (fromApiResponse {}) = none ∧
     generate_max_pods env (fromApiResponse {}) =
       .ok (setMaxPods (fromApiResponse {}) 35)) := by
  refine ⟨rfl, ?_⟩
  exact (claim_C7_max_pods_miss_non_fatal _ (fromApiResponse {}) "t3.large" rfl rfl).2.1
    (.eniMaxPodsFile ENI_MAX_PODS_OVERRIDE_PATH) 35 (by decide) (by decide)

/-- A Kubernetes-scoped write leaves every projection it does not touch
unchanged in the combined view, provided the projection is absent on the
default record. -/
theorem overlayK8s_setK8s_other {α : Type} (info : SettingsViewDelta)
    (g : KubernetesSettingsView → Option α)
    (upd : KubernetesSettingsView → KubernetesSettingsView)
    (h1 : ∀ k, g (upd k) = g k) (h2 : g {} = none) :
    overlayK8s (setK8s info upd) g = overlayK8s info g := by
  unfold overlayK8s setK8s overlayGet
  cases hk : info.delta.kubernetes with
  | none => simp [h1, h2]
  | some k => simp [h1]

/-- A Kubernetes-scoped write makes its own projection read back as the
written value in the combined view. -/
theorem overlayK8s_setK8s_same {α : Type} (info : SettingsViewDelta)
    (g : KubernetesSettingsView → Option α)
    (upd : KubernetesSettingsView → KubernetesSettingsView) (v : α)
    (h : ∀ k, g (upd k) = some v) :
    overlayK8s (setK8s info upd) g = some v := by
  unfold overlayK8s setK8s overlayGet
  simp [h]

@[simp] theorem getMaxPods_setMaxPods (info : SettingsViewDelta) (v : Nat) :
    getMaxPods (setMaxPods info v) = some v :=
  overlayK8s_setK8s_same info _ _ v fun _ => rfl

@[simp] theorem getClusterDnsIp_setMaxPods (info : SettingsViewDelta) (v : Nat) :
    getClusterDnsIp (setMaxPods info v) = getClusterDnsIp info :=
  overlayK8s_setK8s_other info _ _ (fun _ => rfl) rfl

@[simp] theorem getNodeIp_setMaxPods (info : SettingsViewDelta) (v : Nat) :
    getNodeIp (setMaxPods info v) = getNodeIp info :=
  overlayK8s_setK8s_other info _ _ (fun _ => rfl) rfl

@[simp] theorem getProviderId_setMaxPods (info : SettingsViewDelta) (v : Nat) :
    getProviderId (setMaxPods info v) = getProviderId info :=
  overlayK8s_setK8s_other info _ _ (fun _ => rfl) rfl

@[simp] theorem getHostnameOverride_setMaxPods (info : SettingsViewDelta) (v : Nat) :
    getHostnameOverride (setMaxPods info v) = getHostnameOverride info :=
  overlayK8s_setK8s_other info _ _ (fun _ => rfl) rfl

@[simp] theorem getClusterDnsIp_setClusterDnsIp (info : SettingsViewDelta)
    (v : KubernetesClusterDnsIp) :
    getClusterDnsIp (setClusterDnsIp info v) = some v :=
  overlayK8s_setK8s_same info _ _ v fun _ => rfl

@[simp] theorem getMaxPods_setClusterDnsIp (info : SettingsViewDelta)
    (v : KubernetesClusterDnsIp) :
    getMaxPods (setClusterDnsIp info v) = getMaxPods info :=
  overlayK8s_setK8s_other info _ _ (fun _ => rfl) rfl

@[simp] theorem getNodeIp_setClusterDnsIp (info : SettingsViewDelta)
    (v : KubernetesClusterDnsIp) :
    getNodeIp (setClusterDnsIp info v) = getNodeIp info :=
  overlayK8s_setK8s_other info _ _ (fun _ => rfl) rfl

@[simp] theorem getProviderId_setClusterDnsIp (info : SettingsViewDelta)
    (v : KubernetesClusterDnsIp) :
    getProviderId (setClusterDnsIp info v) = getProviderId info :=
  overlayK8s_setK8s_other info _ _ (fun _ => rfl) rfl

@[simp] theorem getHostnameOverride_setClusterDnsIp (info : SettingsViewDelta)
    (v : KubernetesClusterDnsIp) :
    getHostnameOverride (setClusterDnsIp info v) = getHostnameOverride info :=
  overlayK8s_setK8s_other info _ _ (fun _ => rfl) rfl

@[simp] theorem getNodeIp_setNodeIp (info : SettingsViewDelta) (v : IpAddr) :
    getNodeIp (setNodeIp info v) = some v :=
  overlayK8s_setK8s_same info _ _ v fun _ => rfl

@[simp] theorem getClusterDnsIp_setNodeIp (info : SettingsViewDelta) (v : IpAddr) :
    getClusterDnsIp (setNodeIp info v) = getClusterDnsIp info :=
  overlayK8s_setK8s_other info _ _ (fun _ => rfl) rfl

@[simp] theorem getMaxPods_setNodeIp (info : SettingsViewDelta) (v : IpAddr) :
    getMaxPods (setNodeIp info v) = getMaxPods info :=
  overlayK8s_setK8s_other info _ _ (fun _ => rfl) rfl

@[simp] theorem getProviderId_setNodeIp (info : SettingsViewDelta) (v : IpAddr) :
    getProviderId (setNodeIp info v) = getProviderId info :=
  overlayK8s_setK8s_other info _ _ (fun _ => rfl) rfl

@[simp] theorem getHostnameOverride_setNodeIp (info : SettingsViewDelta) (v : IpAddr) :
    getHostnameOverride (setNodeIp info v) = getHostnameOverride info :=
  overlayK8s_setK8s_other info _ _ (fun _ => rfl) rfl

@[simp] theorem getProviderId_setProviderId (info : SettingsViewDelta) (v : String) :
    getProviderId (setProviderId info v) = some v :=
  overlayK8s_setK8s_same info _ _ v fun _ => rfl

@[simp] theorem getClusterDnsIp_setProviderId (info : SettingsViewDelta) (v : String) :
    getClusterDnsIp (setProviderId info v) = getClusterDnsIp info :=
  overlayK8s_setK8s_other info _ _ (fun _ => rfl) rfl

@[simp] theorem getNodeIp_setProviderId (info : SettingsViewDelta) (v : String) :
    getNodeIp (setProviderId info v) = getNodeIp info :=
  overlayK8s_setK8s_other info _ _ (fun _ => rfl) rfl

@[simp] theorem getMaxPods_setProviderId (info : SettingsViewDelta) (v : String) :
    getMaxPods (setProviderId info v) = getMaxPods info :=
  overlayK8s_setK8s_other info _ _ (fun _ => rfl) rfl

@[simp] theorem getHostnameOverride_setProviderId (info : SettingsViewDelta) (v : String) :
    getHostnameOverride (setProviderId info v) = getHostnameOverride info :=
  overlayK8s_setK8s_other info _ _ (fun _ => rfl) rfl

@[simp] theorem getHostnameOverride_setHostnameOverride (info : SettingsViewDelta)
    (v : String) :
    getHostnameOverride (setHostnameOverride info v) = some v :=
  overlayK8s_setK8s_same info _ _ v fun _ => rfl

@[simp] theorem getClusterDnsIp_setHostnameOverride (info : SettingsViewDelta) (v : String) :
    getClusterDnsIp (setHostnameOverride info v) = getClusterDnsIp info :=
  overlayK8s_setK8s_other info _ _ (fun _ => rfl) rfl

@[simp] theorem getNodeIp_setHostnameOverride (info : SettingsViewDelta) (v : String) :
    getNodeIp (setHostnameOverride info v) = getNodeIp info :=
  overlayK8s_setK8s_other info _ _ (fun _ => rfl) rfl

@[simp] theorem getMaxPods_setHostnameOverride (info : SettingsViewDelta) (v : String) :
    getMaxPods (setHostnameOverride info v) = getMaxPods info :=
  overlayK8s_setK8s_other info _ _ (fun _ => rfl) rfl

@[simp] theorem getProviderId_setHostnameOverride (info : SettingsViewDelta) (v : String) :
    getProviderId (setHostnameOverride info v) = getProviderId info :=
  overlayK8s_setK8s_other info _ _ (fun _ => rfl) rfl

/-- On success the max-pods resolver either returns the view unchanged or
writes max_pods into a view where it was absent. -/
theorem generate_max_pods_ok_shape (env : Env) (info info2 : SettingsViewDelta)
    (h : generate_max_pods env info = .ok info2) :
    info2 = info ∨ ∃ n, getMaxPods info = none ∧ info2 = setMaxPods info n := by
  unfold generate_max_pods at h
  split at h
  · injection h with h
    exact Or.inl h.symm
  · rename_i hset
    split at h
    · injection h with h
      exact Or.inr ⟨_, Option.not_isSome_iff_eq_none.mp hset, h.symm⟩
    · injection h with h
      exact Or.inl h.symm

/-- On success the cluster DNS IP resolver either returns the view
unchanged or writes a scalar cluster DNS IP into a view where it was
absent. -/
theorem generate_cluster_dns_ip_ok_shape (env : Env) (info info2 : SettingsViewDelta)
    (h : generate_cluster_dns_ip env info = .ok info2) :
    info2 = info ∨
      ∃ ip, getClusterDnsIp info = none ∧
        info2 = setClusterDnsIp info (KubernetesClusterDnsIp.Scalar ip) := by
  unfold generate_cluster_dns_ip at h
  split at h
  · rename_i hset
    injection h with h
    exact Or.inl h.symm
  · rename_i hset
    split at h
    · exact absurd h (by simp)
    · split at h
      · exact absurd h (by simp)
      · split at h
        · injection h with h
          exact Or.inr ⟨_, Option.not_isSome_iff_eq_none.mp hset, h.symm⟩
        · exact absurd h (by simp)

/-- On success the node IP resolver either returns the view unchanged or
writes node_ip, where it was absent, into the view produced by a
successful run of the cluster DNS IP resolver. -/
theorem generate_node_ip_ok_shape (env : Env) (info info2 : SettingsViewDelta)
    (h : generate_node_ip env info = .ok info2) :
    info2 = info ∨
      ∃ info1 ip, generate_cluster_dns_ip env info = .ok info1 ∧
        getNodeIp info = none ∧ info2 = setNodeIp info1 ip := by
  unfold generate_node_ip at h
  split at h
  · rename_i hset
    injection h with h
    exact Or.inl h.symm
  · rename_i hset
    split at h
    · exact absurd h (by simp)
    · rename_i info1 hd
      split at h
      · exact absurd h (by simp)
      · split at h
        · exact absurd h (by simp)
        · split at h
          · injection h with h
            exact Or.inr ⟨info1, _, hd, Option.not_isSome_iff_eq_none.mp hset, h.symm⟩
          · exact absurd h (by simp)

/-- On success the provider ID resolver either returns the view unchanged
or writes provider_id into a view where it was absent. -/
theorem generate_provider_id_ok_shape (env : Env) (info info2 : SettingsViewDelta)
    (h : generate_provider_id env info = .ok info2) :
    info2 = info ∨ ∃ s, getProviderId info = none ∧ info2 = setProviderId info s := by
  unfold generate_provider_id at h
  split at h
  · rename_i hset
    injection h with h
    exact Or.inl h.symm
  · rename_i hset
    split at h
    · exact absurd h (by simp)
    · split at h
      · exact absurd h (by simp)
      · simp only [] at h
        split at h
        · injection h with h
          exact Or.inr ⟨_, Option.not_isSome_iff_eq_none.mp hset, h.symm⟩
        · exact absurd h (by simp)

/-- On success the node-name resolver either returns the view unchanged or
writes hostname_override into a view where it was absent. -/
theorem generate_node_name_ok_shape (env : Env) (info info2 : SettingsViewDelta)
    (h : generate_node_name env info = .ok info2) :
    info2 = info ∨ ∃ s, getHostnameOverride info = none ∧
      info2 = setHostnameOverride info s := by
  unfold generate_node_name at h
  split at h
  · rename_i hset
    injection h with h
    exact Or.inl h.symm
  · rename_i hset
    split at h
    · injection h with h
      exact Or.inl h.symm
    · split at h
      · exact absurd h (by simp)
      · split at h
        · exact absurd h (by simp)
        · split at h
          · split at h
            · exact absurd h (by simp)
            · split at h
              · injection h with h
                exact Or.inr ⟨_, Option.not_isSome_iff_eq_none.mp hset, h.symm⟩
              · exact absurd h (by simp)
          · split at h
            · injection h with h
              exact Or.inr ⟨_, Option.not_isSome_iff_eq_none.mp hset, h.symm⟩
            · exact absurd h (by simp)

/-- Every target setting already present in the combined view keeps its
value when passing from the first view to the second. -/
def k8sPreserved (info info2 : SettingsViewDelta) : Prop :=
  (∀ v, getClusterDnsIp info = some v → getClusterDnsIp info2 = some v) ∧
  (∀ v, getNodeIp info = some v → getNodeIp info2 = some v) ∧
  (∀ v, getMaxPods info = some v → getMaxPods info2 = some v) ∧
  (∀ v, getProviderId info = some v → getProviderId info2 = some v) ∧
  (∀ v, getHostnameOverride info = some v → getHostnameOverride info2 = some v)

theorem k8sPreserved_refl (info : SettingsViewDelta) : k8sPreserved info info :=
  ⟨fun _ hv => hv, fun _ hv => hv, fun _ hv => hv, fun _ hv => hv, fun _ hv => hv⟩

theorem k8sPreserved_trans {a b c : SettingsViewDelta}
    (h1 : k8sPreserved a b) (h2 : k8sPreserved b c) : k8sPreserved a c :=
  ⟨fun v hv => h2.1 v (h1.1 v hv),
   fun v hv => h2.2.1 v (h1.2.1 v hv),
   fun v hv => h2.2.2.1 v (h1.2.2.1 v hv),
   fun v hv => h2.2.2.2.1 v (h1.2.2.2.1 v hv),
   fun v hv => h2.2.2.2.2 v (h1.2.2.2.2 v hv)⟩

theorem k8sPreserved_setMaxPods (info : SettingsViewDelta) (n : Nat)
    (h : getMaxPods info = none) : k8sPreserved info (setMaxPods info n) :=
  ⟨fun v hv => (by simp [hv]), fun v hv => (by simp [hv]),
   fun v hv => (by rw [h] at hv; cases hv),
   fun v hv => (by simp [hv]), fun v hv => (by simp [hv])⟩

theorem k8sPreserved_setClusterDnsIp (info : SettingsViewDelta) (ip : KubernetesClusterDnsIp)
    (h : getClusterDnsIp info = none) : k8sPreserved info (setClusterDnsIp info ip) :=
  ⟨fun v hv => (by rw [h] at hv; cases hv),
   fun v hv => (by simp [hv]), fun v hv => (by simp [hv]),
   fun v hv => (by simp [hv]), fun v hv => (by simp [hv])⟩

theorem k8sPreserved_setNodeIp (info : SettingsViewDelta) (ip : IpAddr)
    (h : getNodeIp info = none) : k8sPreserved info (setNodeIp info ip) :=
  ⟨fun v hv => (by simp [hv]),
   fun v hv => (by rw [h] at hv; cases hv),
   fun v hv => (by simp [hv]), fun v hv => (by simp [hv]), fun v hv => (by simp [hv])⟩

theorem k8sPreserved_setProviderId (info : SettingsViewDelta) (s : String)
    (h : getProviderId info = none) : k8sPreserved info (setProviderId info s) :=
  ⟨fun v hv => (by simp [hv]), fun v hv => (by simp [hv]), fun v hv => (by simp [hv]),
   fun v hv => (by rw [h] at hv; cases hv),
   fun v hv => (by simp [hv])⟩

theorem k8sPreserved_setHostnameOverride (info : SettingsViewDelta) (s : String)
    (h : getHostnameOverride info = none) : k8sPreserved info (setHostnameOverride info s) :=
  ⟨fun v hv => (by simp [hv]), fun v hv => (by simp [hv]), fun v hv => (by simp [hv]),
   fun v hv => (by simp [hv]),
   fun v hv => (by rw [h] at hv; cases hv)⟩

theorem generate_cluster_dns_ip_pres (env : Env) (info info2 : SettingsViewDelta)
    (h : generate_cluster_dns_ip env info = .ok info2) : k8sPreserved info info2 := by
  rcases generate_cluster_dns_ip_ok_shape env info info2 h with rfl | ⟨ip, hnone, rfl⟩
  · exact k8sPreserved_refl _
  · exact k8sPreserved_setClusterDnsIp info _ hnone

theorem generate_node_ip_pres (env : Env) (info info2 : SettingsViewDelta)
    (h : generate_node_ip env info = .ok info2) : k8sPreserved info info2 := by
  rcases generate_node_ip_ok_shape env info info2 h with rfl | ⟨info1, ip, hd, hnone, rfl⟩
  · exact k8sPreserved_refl _
  · have hpres1 := generate_cluster_dns_ip_pres env info info1 hd
    have hnode1 : getNodeIp info1 = none := by
      rcases generate_cluster_dns_ip_ok_shape env info info1 hd with rfl | ⟨ip2, hdns, rfl⟩
      · exact hnone
      · simpa using hnone
    exact k8sPreserved_trans hpres1 (k8sPreserved_setNodeIp info1 ip hnode1)

theorem generate_max_pods_pres (env : Env) (info info2 : SettingsViewDelta)
    (h : generate_max_pods env info = .ok info2) : k8sPreserved info info2 := by
  rcases generate_max_pods_ok_shape env info info2 h with rfl | ⟨n, hnone, rfl⟩
  · exact k8sPreserved_refl _
  · exact k8sPreserved_setMaxPods info n hnone

theorem generate_provider_id_pres (env : Env) (info info2 : SettingsViewDelta)
    (h : generate_provider_id env info = .ok info2) : k8sPreserved info info2 := by
  rcases generate_provider_id_ok_shape env info info2 h with rfl | ⟨s, hnone, rfl⟩
  · exact k8sPreserved_refl _
  · exact k8sPreserved_setProviderId info s hnone

theorem generate_node_name_pres (env : Env) (info info2 : SettingsViewDelta)
    (h : generate_node_name env info = .ok info2) : k8sPreserved info info2 := by
  rcases generate_node_name_ok_shape env info info2 h with rfl | ⟨s, hnone, rfl⟩
  · exact k8sPreserved_refl _
  · exact k8sPreserved_setHostnameOverride info s hnone

/-- A successful pipeline run preserves every already-present target
setting. -/
theorem pipeline_pres (env : Env) (info info2 : SettingsViewDelta)
    (h : pipeline env info = .ok info2) : k8sPreserved info info2 := by
  unfold pipeline at h
  split at h
  · exact absurd h (by simp)
  · rename_i a ha
    split at h
    · exact absurd h (by simp)
    · rename_i b hb
      split at h
      · exact absurd h (by simp)
      · rename_i c hc
        split at h
        · exact absurd h (by simp)
        · rename_i d hd
          exact k8sPreserved_trans (generate_cluster_dns_ip_pres env info a ha)
            (k8sPreserved_trans (generate_node_ip_pres env a b hb)
              (k8sPreserved_trans (generate_max_pods_pres env b c hc)
                (k8sPreserved_trans (generate_provider_id_pres env c d hd)
                  (generate_node_name_pres env d info2 h))))

theorem generate_cluster_dns_ip_skip (env : Env) (info : SettingsViewDelta)
    (h : (getClusterDnsIp info).isSome) : generate_cluster_dns_ip env info = .ok info := by
  unfold generate_cluster_dns_ip
  rw [if_pos h]

theorem generate_node_ip_skip (env : Env) (info : SettingsViewDelta)
    (h : (getNodeIp info).isSome) : generate_node_ip env info = .ok info := by
  unfold generate_node_ip
  rw [if_pos h]

theorem generate_max_pods_skip (env : Env) (info : SettingsViewDelta)
    (h : (getMaxPods info).isSome) : generate_max_pods env info = .ok info := by
  unfold generate_max_pods
  rw [if_pos h]

theorem generate_provider_id_skip (env : Env) (info : SettingsViewDelta)
    (h : (getProviderId info).isSome) : generate_provider_id env info = .ok info := by
  unfold generate_provider_id
  rw [if_pos h]

theorem generate_node_name_skip (env : Env) (info : SettingsViewDelta)
    (h : (getHostnameOverride info).isSome) : generate_node_name env info = .ok info := by
  unfold generate_node_name
  rw [if_pos h]

/-- All five settings the pipeline can resolve are present in the
combined view. -/
def allTargetsSet (info : SettingsViewDelta) : Prop :=
  (getClusterDnsIp info).isSome ∧ (getNodeIp info).isSome ∧ (getMaxPods info).isSome ∧
    (getProviderId info).isSome ∧ (getHostnameOverride info).isSome

/-- When every target setting is already present, every resolver
short-circuits and the pipeline returns its input unchanged. -/
theorem pipeline_noop (env : Env) (info : SettingsViewDelta)
    (h : allTargetsSet info) : pipeline env info = .ok info := by
  obtain ⟨h1, h2, h3, h4, h5⟩ := h
  simp only [pipeline, generate_cluster_dns_ip_skip env info h1,
    generate_node_ip_skip env info h2, generate_max_pods_skip env info h3,
    generate_provider_id_skip env info h4, generate_node_name_skip env info h5]

/-- When the pre-pipeline setup steps succeed, run is determined by the
pipeline result: a pipeline error propagates with no submission, an empty
Kubernetes delta submits nothing, and a non-empty Kubernetes delta is
submitted exactly once tagged with the launch transaction. -/
theorem run_eq_of_setup (env : Env) (snapshot : SettingsView)
    (hL : env.logger_init = .ok ())
    (hG : env.get_aws_k8s_info = .ok snapshot)
    (hT : env.tempdir_create = .ok ())
    (hS : set_aws_config env (fromApiResponse snapshot) = .ok ()) :
    run env =
      match pipeline env (fromApiResponse snapshot) with
      | .error e => (.error e, [])
      | .ok info2 =>
        match info2.delta.kubernetes with
        | some k8s_settings =>
          match env.submit_patch k8s_settings with
          | .ok () => (.ok (), [(k8s_settings, LAUNCH_TRANSACTION)])
          | .error _ => (.error .setFailure, [(k8s_settings, LAUNCH_TRANSACTION)])
        | none => (.ok (), [])
      := by
  unfold run
  simp only [hL, hG, hT, hS]

/-- run submits either nothing or exactly one patch, always tagged with
the launch transaction. -/
theorem run_subs_shape (env : Env) :
    (run env).2 = [] ∨ ∃ k8s_settings, (run env).2 = [(k8s_settings, LAUNCH_TRANSACTION)] := by
  unfold run
  split
  · exact Or.inl rfl
  · split
    · exact Or.inl rfl
    · split
      · exact Or.inl rfl
      · simp only []
        split
        · exact Or.inl rfl
        · split
          · exact Or.inl rfl
          · split
            · split
              · exact Or.inr ⟨_, rfl⟩
              · exact Or.inr ⟨_, rfl⟩
            · exact Or.inl rfl

/-- C1: every resolver short-circuits to success without touching the
view when its target setting is present in the snapshot or delta; a
successful pipeline never overwrites an already-present target value; and
against a snapshot that already contains every target field the pipeline
returns the view with its delta still empty, so no submission occurs. -/
theorem claim_C1_first_value_wins (env : Env) (info : SettingsViewDelta) :
    ((getClusterDnsIp info).isSome → generate_cluster_dns_ip env info = .ok info) ∧
    ((getNodeIp info).isSome → generate_node_ip env info = .ok info) ∧
    ((getMaxPods info).isSome → generate_max_pods env info = .ok info) ∧
    ((getProviderId info).isSome → generate_provider_id env info = .ok info) ∧
    ((getHostnameOverride info).isSome → generate_node_name env info = .ok info) ∧
    (∀ info2, pipeline env info = .ok info2 → k8sPreserved info info2) ∧
    (∀ snapshot, env.get_aws_k8s_info = .ok snapshot →
      allTargetsSet (fromApiResponse snapshot) →
      pipeline env (fromApiResponse snapshot) = .ok (fromApiResponse snapshot) ∧
      (run env).2 = []) := by
  refine ⟨generate_cluster_dns_ip_skip env info, generate_node_ip_skip env info,
    generate_max_pods_skip env info, generate_provider_id_skip env info,
    generate_node_name_skip env info, pipeline_pres env info, ?_⟩
  intro snapshot hG hall
  refine ⟨pipeline_noop env _ hall, ?_⟩
  rcases hL : env.logger_init with e | u
  · unfold run
    simp [hL]
  · cases u
    rcases hT : env.tempdir_create with e | u2
    · unfold run
      simp [hL, hG, hT]
    · cases u2
      rcases hS : set_aws_config env (fromApiResponse snapshot) with e | u3
      · unfold run
        simp [hL, hG, hT, hS]
      · cases u3
        rw [run_eq_of_setup env snapshot hL hG hT hS]
        rw [pipeline_noop env (fromApiResponse snapshot) hall]
        rfl

/-- A snapshot in which all five target settings are already present. -/
def fullSnapshotC1 : SettingsView :=
  { kubernetes := some
      { cluster_dns_ip := some (.Scalar (.v4 10 100 0 10)),
        node_ip := some (.v4 192 168 1 1),
        max_pods := some 29,
        provider_id := some "aws:///us-west-2a/i-123",
        hostname_override := some "host-1" } }

/-- Environment whose configuration store returns the full snapshot. -/
def envC1 : Env := { baseEnv with get_aws_k8s_info := .ok fullSnapshotC1 }

/-- Witness for C1 at a snapshot in which all five target settings are
present: the pipeline leaves the delta empty and run submits nothing. -/
theorem claim_C1_witness :
    allTargetsSet (fromApiResponse fullSnapshotC1) ∧
    pipeline envC1 (fromApiResponse fullSnapshotC1) = .ok (fromApiResponse fullSnapshotC1) ∧
    (run envC1).2 = [] := by
  have h := (claim_C1_first_value_wins envC1 (fromApiResponse fullSnapshotC1)).2.2.2.2.2.2
    fullSnapshotC1 rfl ⟨rfl, rfl, rfl, rfl, rfl⟩
  exact ⟨⟨rfl, rfl, rfl, rfl, rfl⟩, h.1, h.2⟩

/-- C2: with the pre-pipeline setup succeeding, a pipeline error makes run
fail with that error and submit nothing; a successful pipeline with an
empty Kubernetes delta submits nothing; a successful pipeline with a
non-empty Kubernetes delta submits exactly one patch whose body is that
delta, tagged with the launch transaction; and in every case at most one
patch, always so tagged, is submitted. -/
theorem claim_C2_all_or_nothing_emission (env : Env) (snapshot : SettingsView)
    (hL : env.logger_init = .ok ())
    (hG : env.get_aws_k8s_info = .ok snapshot)
    (hT : env.tempdir_create = .ok ())
    (hS : set_aws_config env (fromApiResponse snapshot) = .ok ()) :
    (∀ e, pipeline env (fromApiResponse snapshot) = .error e →
      run env = (.error e, [])) ∧
    (∀ info2, pipeline env (fromApiResponse snapshot) = .ok info2 →
      (info2.delta.kubernetes = none → run env = (.ok (), [])) ∧
      (∀ k8s_settings, info2.delta.kubernetes = some k8s_settings →
        (run env).2 = [(k8s_settings, LAUNCH_TRANSACTION)])) ∧
    ((run env).2 = [] ∨
      ∃ k8s_settings, (run env).2 = [(k8s_settings, LAUNCH_TRANSACTION)]) := by
  have hrun := run_eq_of_setup env snapshot hL hG hT hS
  refine ⟨?_, ?_, run_subs_shape env⟩
  · intro e he
    simp only [hrun, he]
  · intro info2 hok
    refine ⟨?_, ?_⟩
    · intro hnone
      simp only [hrun, hok, hnone]
    · intro k8s_settings hk
      simp only [hrun, hok, hk]
      split <;> rfl

/-- Environment for the C2 witness: an empty snapshot and an IMDS with no
MAC addresses, so the cluster DNS IP resolver fails and the pipeline
aborts. -/
def envC2 : Env := { baseEnv with get_aws_k8s_info := .ok {} }

/-- Witness for C2 at an environment whose pipeline fails: run propagates
the error and no patch is submitted. -/
theorem claim_C2_witness :
    pipeline envC2 (fromApiResponse {}) = .error (.imdsNone "mac addresses") ∧
    run envC2 = (.error (.imdsNone "mac addresses"), []) := by
  refine ⟨rfl, ?_⟩
  exact (claim_C2_all_or_nothing_emission envC2 {} rfl rfl rfl rfl).1
    (.imdsNone "mac addresses") rfl

/-- Follows the claim's words: the primary path yields a DNS address
exactly when region and cluster name are both present, the bounded
describe-cluster call succeeds, the returned descriptor carries a service
IPv4 CIDR, and that CIDR parses; in every other case it yields nothing. -/
def specPrimaryDnsIp (env : Env) (info : SettingsViewDelta) : Option String :=
  match getRegion info, getClusterName info with
  | some region, some cluster_name =>
    match env.eks_cluster_network_config region cluster_name
        (getHttpsProxy info) (getNoProxy info) with
    | .ok config =>
      match config.service_ipv4_cidr with
      | some ipv4_cidr =>
        match get_dns_from_ipv4_cidr ipv4_cidr with
        | .ok dns_ip => some dns_ip
        | .error _ => none
      | none => none
    | .error _ => none
  | _, _ => none

/-- The embedded get_eks_network_config always succeeds, returning exactly
the claim-level primary-path value. -/
theorem get_eks_network_config_eq (env : Env) (info : SettingsViewDelta) :
    get_eks_network_config env info = .ok (specPrimaryDnsIp env info) := by
  unfold get_eks_network_config specPrimaryDnsIp
  split
  · split
    · split
      · split <;> rfl
      · rfl
    · rfl
  · rfl

/-- C3: with cluster_dns_ip unset, the resolver equals the composition
that takes the primary-path value when the primary path can yield one and
otherwise falls back to the IMDS heuristic, parsing the chosen address;
consequently it returns a terminal error only when the primary path
yields nothing and the fallback fails, or when the chosen address does
not parse as an IP; and the describe-cluster timeout bound is 300
seconds. -/
theorem claim_C3_cluster_dns_fallback (env : Env) (info : SettingsViewDelta)
    (h : getClusterDnsIp info = none) :
    (generate_cluster_dns_ip env info =
      match specPrimaryDnsIp env info with
      | some ip_addr =>
        (match env.ip_from_str ip_addr with
         | some ip => .ok (setClusterDnsIp info (KubernetesClusterDnsIp.Scalar ip))
         | none => .error (.badIp ip_addr))
      | none =>
        (match get_ipv4_cluster_dns_ip_from_imds_mac env with
         | .error e => .error e
         | .ok ip_addr =>
           (match env.ip_from_str ip_addr with
            | some ip => .ok (setClusterDnsIp info (KubernetesClusterDnsIp.Scalar ip))
            | none => .error (.badIp ip_addr)))) ∧
    (∀ e, generate_cluster_dns_ip env info = .error e →
      (∃ ip_addr, specPrimaryDnsIp env info = some ip_addr ∧
        env.ip_from_str ip_addr = none) ∨
      (specPrimaryDnsIp env info = none ∧
        (get_ipv4_cluster_dns_ip_from_imds_mac env = .error e ∨
         ∃ ip_addr, get_ipv4_cluster_dns_ip_from_imds_mac env = .ok ip_addr ∧
           env.ip_from_str ip_addr = none))) ∧
    EKS_DESCRIBE_CLUSTER_TIMEOUT = 300 := by
  have heq : generate_cluster_dns_ip env info =
      match specPrimaryDnsIp env info with
      | some ip_addr =>
        (match env.ip_from_str ip_addr with
         | some ip => .ok (setClusterDnsIp info (KubernetesClusterDnsIp.Scalar ip))
         | none => .error (.badIp ip_addr))
      | none =>
        (match get_ipv4_cluster_dns_ip_from_imds_mac env with
         | .error e => .error e
         | .ok ip_addr =>
           (match env.ip_from_str ip_addr with
            | some ip => .ok (setClusterDnsIp info (KubernetesClusterDnsIp.Scalar ip))
            | none => .error (.badIp ip_addr))) := by
    simp only [generate_cluster_dns_ip, h, Option.isSome_none, Bool.false_eq_true,
      if_false, get_eks_network_config_eq env info]
    rcases hp : specPrimaryDnsIp env info with _ | dns
    · rfl
    · rfl
  refine ⟨heq, ?_, rfl⟩
  intro e he
  rcases hp : specPrimaryDnsIp env info with _ | ip_addr
  · rcases hf : get_ipv4_cluster_dns_ip_from_imds_mac env with ef | s
    · have hval : generate_cluster_dns_ip env info = .error ef := by
        simp only [heq, hp, hf]
      rw [hval] at he
      injection he with he2
      exact Or.inr ⟨rfl, Or.inl (by rw [he2])⟩
    · rcases hip : env.ip_from_str s with _ | ip
      · exact Or.inr ⟨rfl, Or.inr ⟨s, rfl, hip⟩⟩
      · have hval : generate_cluster_dns_ip env info =
            .ok (setClusterDnsIp info (KubernetesClusterDnsIp.Scalar ip)) := by
          simp only [heq, hp, hf, hip]
        rw [hval] at he
        exact absurd he (by simp)
  · rcases hip : env.ip_from_str ip_addr with _ | ip
    · exact Or.inl ⟨ip_addr, rfl, hip⟩
    · have hval : generate_cluster_dns_ip env info =
          .ok (setClusterDnsIp info (KubernetesClusterDnsIp.Scalar ip)) := by
        simp only [heq, hp, hip]
      rw [hval] at he
      exact absurd he (by simp)

/-- Environment for the C3 witness: no region or cluster name is known, so
the primary path yields nothing; IMDS advertises a non-10. CIDR block and
the default cluster DNS IP parses. -/
def envC3 : Env :=
  { baseEnv with
    fetch_mac_addresses := .ok (some ["0e:a1"]),
    fetch_cidr_blocks_for_mac := fun _ => .ok (some ["192.168.0.0/16"]),
    ip_from_str := fun s =>
      if s = "10.100.0.10" then some (.v4 10 100 0 10) else none }

/-- Witness for C3: with the primary path unable to yield a value, the
resolver falls back to the IMDS heuristic and writes the parsed default
address. -/
theorem claim_C3_witness :
    getClusterDnsIp (fromApiResponse {}) = none ∧
    generate_cluster_dns_ip envC3 (fromApiResponse {}) =
      .ok (setClusterDnsIp (fromApiResponse {})
        (KubernetesClusterDnsIp.Scalar (.v4 10 100 0 10))) := by
  refine ⟨rfl, ?_⟩
  have h := (claim_C3_cluster_dns_fallback envC3 (fromApiResponse {}) rfl).1
  exact h.trans (by decide)

/-- Follows the claim's words: once the cluster DNS IP resolver has run,
the node IP resolver reads the first resolved cluster DNS address, fails
with a no-IP error when there is none, queries the IPv4 local address for
an IPv4 cluster DNS IP and the primary IPv6 address for an IPv6 one, and
writes the parsed answer as node_ip. -/
def specNodeIpFromFamily (env : Env) (info1 : SettingsViewDelta) :
    Except PlutoError SettingsViewDelta :=
  match (getClusterDnsIp info1).bind KubernetesClusterDnsIp.iterFirst with
  | none => .error .noIp
  | some cluster_dns_ip =>
    match (match cluster_dns_ip with
           | .v4 _ _ _ _ => imdsFetch env.fetch_local_ipv4_address "node ipv4 address"
           | .v6 _ =>
             imdsFetch env.fetch_primary_ipv6_address
               "ipv6s associated with primary network interface") with
    | .error e => .error e
    | .ok node_ip =>
      match env.ip_from_str node_ip with
      | some ip => .ok (setNodeIp info1 ip)
      | none => .error (.badIp node_ip)

/-- C5: with node_ip unset, the resolver first runs the cluster DNS IP
resolver and then continues on its output: no resolved cluster DNS
address is a no-IP error, an IPv4 cluster DNS IP selects the IMDS local
IPv4 query, an IPv6 one selects the primary IPv6 query, and the fetched
address is parsed and written as node_ip. -/
theorem claim_C5_node_ip_ordering (env : Env) (info : SettingsViewDelta)
    (h : getNodeIp info = none) :
    (generate_node_ip env info =
      match generate_cluster_dns_ip env info with
      | .error e => .error e
      | .ok info1 => specNodeIpFromFamily env info1) ∧
    (∀ info1, generate_cluster_dns_ip env info = .ok info1 →
      ((getClusterDnsIp info1).bind KubernetesClusterDnsIp.iterFirst = none →
        generate_node_ip env info = .error .noIp) ∧
      (∀ a b c d,
        (getClusterDnsIp info1).bind KubernetesClusterDnsIp.iterFirst =
          some (.v4 a b c d) →
        generate_node_ip env info =
          (match imdsFetch env.fetch_local_ipv4_address "node ipv4 address" with
           | .error e => .error e
           | .ok node_ip =>
             match env.ip_from_str node_ip with
             | some ip => .ok (setNodeIp info1 ip)
             | none => .error (.badIp node_ip))) ∧
      (∀ gs,
        (getClusterDnsIp info1).bind KubernetesClusterDnsIp.iterFirst =
          some (.v6 gs) →
        generate_node_ip env info =
          (match imdsFetch env.fetch_primary_ipv6_address
              "ipv6s associated with primary network interface" with
           | .error e => .error e
           | .ok node_ip =>
             match env.ip_from_str node_ip with
             | some ip => .ok (setNodeIp info1 ip)
             | none => .error (.badIp node_ip)))) := by
  have heq : generate_node_ip env info =
      match generate_cluster_dns_ip env info with
      | .error e => .error e
      | .ok info1 => specNodeIpFromFamily env info1 := by
    unfold generate_node_ip
    rw [if_neg (by simp [h])]
    rcases hd : generate_cluster_dns_ip env info with e | info1
    · rfl
    · rfl
  refine ⟨heq, ?_⟩
  intro info1 hd
  have hv : generate_node_ip env info = specNodeIpFromFamily env info1 := by
    simp only [heq, hd]
  refine ⟨?_, ?_, ?_⟩
  · intro hfst
    simp only [hv, specNodeIpFromFamily, hfst]
  · intro a b c d hfst
    simp only [hv, specNodeIpFromFamily, hfst]
  · intro gs hfst
    simp only [hv, specNodeIpFromFamily, hfst]

/-- Snapshot for the C5 witness: the cluster DNS IP is already present as
an IPv4 scalar. -/
def snapC5 : SettingsView :=
  { kubernetes := some { cluster_dns_ip := some (.Scalar (.v4 172 20 0 10)) } }

/-- Environment for the C5 witness: IMDS advertises a local IPv4 address
that parses. -/
def envC5 : Env :=
  { baseEnv with
    fetch_local_ipv4_address := .ok (some "10.0.0.7"),
    ip_from_str := fun s => if s = "10.0.0.7" then some (.v4 10 0 0 7) else none }

/-- Witness for C5: an IPv4 cluster DNS IP selects the local IPv4 query
and its answer is written as node_ip. -/
theorem claim_C5_witness :
    getNodeIp (fromApiResponse snapC5) = none ∧
    generate_node_ip envC5 (fromApiResponse snapC5) =
      .ok (setNodeIp (fromApiResponse snapC5) (.v4 10 0 0 7)) := by
  refine ⟨rfl, ?_⟩
  have h := (claim_C5_node_ip_ordering envC5 (fromApiResponse snapC5) rfl).1
  exact h.trans (by decide)

/-- Snapshot for the C6 counterexample: hostname_override absent, override
source set to the instance ID, and no region configured. -/
def snapC6 : SettingsView :=
  { kubernetes := some { hostname_override_source := some .InstanceID } }

/-- Environment for the C6 claims: IMDS would return an instance id and
every hostname validates. -/
def envC6 : Env := { baseEnv with fetch_instance_id := .ok (some "i-abc") }

/-- Counterexample to C6 as stated: with the source set to InstanceID, the
instance id available from IMDS and hostname validation passing, the
resolver does not write the instance id as hostname_override — it fails
with a missing-region error, because the region is read before the source
dispatch. -/
theorem claim_C6_counterexample :
    getHostnameOverride (fromApiResponse snapC6) = none ∧
    getHostnameOverrideSource (fromApiResponse snapC6) =
      some KubernetesHostnameOverrideSource.InstanceID ∧
    envC6.fetch_instance_id = .ok (some "i-abc") ∧
    envC6.valid_hostname "i-abc" = true ∧
    getRegion (fromApiResponse snapC6) = none ∧
    generate_node_name envC6 (fromApiResponse snapC6) = .error .awsRegion :=
  ⟨rfl, rfl, rfl, rfl, rfl, rfl⟩

/-- Follows the amended claim's words: with an override source chosen, the
resolver first requires the region and the instance id, then dispatches on
the source: InstanceID writes the validated instance id, PrivateDNSName
writes the validated private DNS name looked up via the control plane. -/
def specGenerateNodeName (env : Env) (info : SettingsViewDelta)
    (src : KubernetesHostnameOverrideSource) : Except PlutoError SettingsViewDelta :=
  match getRegion info with
  | none => .error .awsRegion
  | some region =>
    match imdsFetch env.fetch_instance_id "instance ID" with
    | .error e => .error e
    | .ok instance_id =>
      match src with
      | .PrivateDNSName =>
        match env.ec2_private_dns_name region instance_id
            (getHttpsProxy info) (getNoProxy info) with
        | .error _ => .error .ec2Error
        | .ok hostname_override =>
          if env.valid_hostname hostname_override then
            .ok (setHostnameOverride info hostname_override)
          else .error .invalidHostname
      | .InstanceID =>
        if env.valid_hostname instance_id then
          .ok (setHostnameOverride info instance_id)
        else .error .invalidHostname

/-- C6 (amended): a present hostname_override short-circuits the resolver
to success with the view unchanged, whatever the source holds; with no
override and no source it is a no-op; with a source chosen the resolver
requires region and instance id first (so either missing is an error for
both source values) and then writes the validated hostname dictated by
the source. -/
theorem claim_C6_hostname_override_contract (env : Env) (info : SettingsViewDelta) :
    ((getHostnameOverride info).isSome → generate_node_name env info = .ok info) ∧
    (getHostnameOverride info = none → getHostnameOverrideSource info = none →
      generate_node_name env info = .ok info) ∧
    (∀ src, getHostnameOverride info = none →
      getHostnameOverrideSource info = some src →
      generate_node_name env info = specGenerateNodeName env info src) := by
  refine ⟨generate_node_name_skip env info, ?_, ?_⟩
  · intro h1 h2
    simp only [generate_node_name, h1, Option.isSome_none, Bool.false_eq_true,
      if_false, h2]
  · intro src h1 h2
    simp only [generate_node_name, h1, Option.isSome_none, Bool.false_eq_true,
      if_false, h2, specGenerateNodeName]

/-- Snapshot for the C6 witness: like the counterexample but with a region
configured. -/
def snapC6w : SettingsView :=
  { aws := some { region := some "us-west-2" },
    kubernetes := some { hostname_override_source := some .InstanceID } }

/-- Witness for the amended C6: with region present and source InstanceID,
the fetched instance id is written as the hostname override. -/
theorem claim_C6_witness :
    getHostnameOverride (fromApiResponse snapC6w) = none ∧
    getHostnameOverrideSource (fromApiResponse snapC6w) =
      some KubernetesHostnameOverrideSource.InstanceID ∧
    generate_node_name envC6 (fromApiResponse snapC6w) =
      .ok (setHostnameOverride (fromApiResponse snapC6w) "i-abc") := by
  refine ⟨rfl, rfl, ?_⟩
  have h := (claim_C6_hostname_override_contract envC6 (fromApiResponse snapC6w)).2.2
    KubernetesHostnameOverrideSource.InstanceID rfl rfl
  exact h.trans (by decide)

/-- Witness for C4 at a concrete four-component CIDR. -/
theorem claim_C4_witness :
    splitChar '.' "10.100.0.0/16" = ["10", "100", "0", "0/16"] ∧
    get_dns_from_ipv4_cidr "10.100.0.0/16" = .ok "10.100.0.10" := by
  refine ⟨by decide, ?_⟩
  have h := (claim_C4_get_dns_from_ipv4_cidr "10.100.0.0/16").2.1
    "10" "100" "0" "0/16" (by decide)
  exact h.trans (by decide)
